import Mathlib

/-!
Shallow embedding of the EZChem Flask backends (`src/app.py`, the final
revision, and `src/Main_python.py`, the first revision).

Each HTTP handler is embedded as a pure function from
  * the server configuration (`API_KEY` present and truthy, as a `Bool`),
  * the parsed JSON request body (`Option ReqData`; `none` models
    `request.get_json()` returning nothing — note that a falsy/empty dict
    necessarily lacks every required key, so the `not data or 'k' not in data`
    checks of the source collapse to the key-presence checks modelled here),
  * the outcome of the single external model call the handler would make
    (`Except String String`: the raised exception's text, or the text
    extracted from `response.candidates[0].content.parts[0].text`), and
  * a model of `json.loads` (`parse : String → Except String J`, with the
    parsed-JSON type `J` abstract, since no handler inspects the parsed value)
to an HTTP response (`Resp`).  Prompt construction and the network call are
abstracted into the call outcome; the formula-building code that feeds the
prompt is embedded separately (`formulaOfSymbols`) exactly as inlined in
`handle_predict_bonds` and `get_molecule_info`.
-/

/-! ### String utilities

Python compares strings code-point-lexicographically; `String.decidableLE`
in Lean is not kernel-reducible, so we embed the comparison structurally on
the underlying character lists. -/

/-- Code-point lexicographic comparison of character lists, as Python's
string `<=` (a proper prefix is smaller). -/
def charListLe : List Char → List Char → Bool
  | [], _ => true
  | _ :: _, [] => false
  | a :: as, b :: bs => if a < b then true else if b < a then false else charListLe as bs

/-- The order Python's `sorted` uses on element-symbol strings. -/
def strLe (a b : String) : Prop := charListLe a.data b.data = true

/-- Concatenation of a list of strings, as the `formula += ...` loop folds. -/
def strConcat : List String → String
  | [] => ""
  | s :: rest => s ++ strConcat rest

/-- Python `str.strip()`: drop leading and trailing whitespace (the source
only ever strips ASCII model output, where `Char.isWhitespace` agrees with
Python's whitespace set). -/
def pyStrip (s : String) : String :=
  ⟨((s.data.dropWhile Char.isWhitespace).reverse.dropWhile Char.isWhitespace).reverse⟩

/-- `hay` contains `needle` as a substring (used to state that an error
message carries the upstream exception text). -/
def containsStr (hay needle : String) : Prop :=
  ∃ pre post, hay = pre ++ (needle ++ post)

theorem charListLe_total : ∀ as bs, charListLe as bs = true ∨ charListLe bs as = true
  | [], _ => Or.inl rfl
  | _ :: _, [] => Or.inr rfl
  | a :: as, b :: bs => by
    rcases lt_trichotomy a b with hab | hab | hab
    · left; simp [charListLe, hab]
    · subst hab
      rcases charListLe_total as bs with h | h <;>
        simp [charListLe, lt_irrefl, h]
    · right; simp [charListLe, hab]

theorem charListLe_antisymm : ∀ {as bs}, charListLe as bs = true → charListLe bs as = true →
    as = bs
  | [], [], _, _ => rfl
  | [], _ :: _, _, h2 => by simp [charListLe] at h2
  | _ :: _, [], h1, _ => by simp [charListLe] at h1
  | a :: as, b :: bs, h1, h2 => by
    rcases lt_trichotomy a b with hab | hab | hab
    · simp [charListLe, hab, lt_asymm hab] at h2
    · subst hab
      simp only [charListLe, lt_irrefl, if_false] at h1 h2
      exact congrArg (a :: ·) (charListLe_antisymm h1 h2)
    · simp [charListLe, hab, lt_asymm hab] at h1

theorem charListLe_trans : ∀ {as bs cs}, charListLe as bs = true → charListLe bs cs = true →
    charListLe as cs = true
  | [], _, _, _, _ => rfl
  | _ :: _, [], _, h1, _ => by simp [charListLe] at h1
  | _ :: _, _ :: _, [], _, h2 => by simp [charListLe] at h2
  | a :: as, b :: bs, c :: cs, h1, h2 => by
    rcases lt_trichotomy a b with hab | hab | hab
    · rcases lt_trichotomy b c with hbc | hbc | hbc
      · simp [charListLe, lt_trans hab hbc]
      · subst hbc; simp [charListLe, hab]
      · simp [charListLe, hbc, lt_asymm hbc] at h2
    · subst hab
      simp only [charListLe, lt_irrefl, if_false] at h1
      rcases lt_trichotomy a c with hac | hac | hac
      · simp [charListLe, hac]
      · subst hac
        simp only [charListLe, lt_irrefl, if_false] at h2 ⊢
        exact charListLe_trans h1 h2
      · simp [charListLe, hac, lt_asymm hac] at h2
    · simp [charListLe, hab, lt_asymm hab] at h1

instance : DecidableRel strLe :=
  fun a b => inferInstanceAs (Decidable (charListLe a.data b.data = true))

instance : IsTotal String strLe := ⟨fun a b => charListLe_total a.data b.data⟩

instance : IsTrans String strLe := ⟨fun _ _ _ h1 h2 => charListLe_trans h1 h2⟩

instance : IsAntisymm String strLe :=
  ⟨fun _ _ h1 h2 => String.ext (charListLe_antisymm h1 h2)⟩

/-- Python's `sorted` over the distinct keys of the counter. -/
def sortKeys (l : List String) : List String := List.insertionSort strLe l

theorem strConcat_append (l₁ l₂ : List String) :
    strConcat (l₁ ++ l₂) = strConcat l₁ ++ strConcat l₂ := by
  induction l₁ with
  | nil => rw [List.nil_append, strConcat, String.empty_append]
  | cons s rest ih => rw [List.cons_append, strConcat, strConcat, ih, String.append_assoc]

theorem sortKeys_sorted (l : List String) : List.Sorted strLe (sortKeys l) :=
  List.sorted_insertionSort strLe l

theorem sortKeys_perm (l : List String) : List.Perm (sortKeys l) l :=
  List.perm_insertionSort strLe l

theorem sortKeys_eq_of_perm {l₁ l₂ : List String} (h : List.Perm l₁ l₂) :
    sortKeys l₁ = sortKeys l₂ :=
  List.eq_of_perm_of_sorted ((sortKeys_perm l₁).trans (h.trans (sortKeys_perm l₂).symm))
    (sortKeys_sorted l₁) (sortKeys_sorted l₂)

/-! ### Data model (spec section 3) -/

/-- An atom object as the final-revision frontend submits it:
`{element: string, row?: int, col?: int}`, every field possibly absent. -/
structure Atom where
  element : Option String
  row : Option Int
  col : Option Int
deriving DecidableEq

/-- `atom.get('element', 'X')` from `handle_predict_bonds` / `get_molecule_info`. -/
def Atom.getElement (a : Atom) : String := a.element.getD "X"

/-- A bond object `{from: int, to: int, type: string}` (indices into the
submitted atom list); `analyze_structure` only tests the list's presence. -/
structure Bond where
  fromIdx : Int
  toIdx : Int
  type : String
deriving DecidableEq

/-- The parsed JSON request body of the final revision: the three fields any
of the four handlers ever reads, each possibly absent. -/
structure ReqData where
  atoms : Option (List Atom)
  element : Option String
  bonds : Option (List Bond)
deriving DecidableEq

/-- The body of a response, with the parsed-model-JSON type `J` abstract. -/
inductive RespBody (J : Type) where
  | errorMsg (msg : String)
  | payload (j : J)
  | factPayload (fact : String)
  | textBody (s : String)
  | file (folder : String) (name : String)
deriving DecidableEq

/-- An HTTP response: status code and body. -/
structure Resp (J : Type) where
  status : Nat
  body : RespBody J
deriving DecidableEq

/-! ### The formula builder inlined in `handle_predict_bonds` and
`get_molecule_info` (src/app.py lines 198-209 and 259-269) -/

/-- `f"{count if count > 1 else ''}"`. -/
def suffixCount (count : Nat) : String := if count > 1 then toString count else ""

/-- The inlined formula builder over the extracted symbol list:
`Counter(atom_symbols)`, pop `'C'`, pop `'H'`, then iterate
`sorted(atom_counts.keys())`.  `List.count` plays the counter (so a key is
present iff its count is positive), and the sorted distinct remaining keys
are `sortKeys ((syms.filter ...).dedup)`. -/
def formulaOfSymbols (atom_symbols : List String) : String :=
  let cPart :=
    if 0 < atom_symbols.count "C" then "C" ++ suffixCount (atom_symbols.count "C") else ""
  let hPart :=
    if 0 < atom_symbols.count "H" then "H" ++ suffixCount (atom_symbols.count "H") else ""
  let rest := sortKeys ((atom_symbols.filter (fun s => !(s == "C") && !(s == "H"))).dedup)
  cPart ++ hPart ++ strConcat (rest.map (fun e => e ++ suffixCount (atom_symbols.count e)))

/-- The formula the two handlers build from the submitted atom objects
(`atom_symbols = [atom.get('element', 'X') for atom in atom_list]`). -/
def formulaOf (atom_list : List Atom) : String :=
  formulaOfSymbols (atom_list.map Atom.getElement)

/-! ### The formula builder as the spec words it (for refinement only)

"carbon first (count suffix omitted when count is 1), then hydrogen, then
remaining elements in alphabetical order by symbol, each with its count
suffix". -/

/-- Count suffix as the spec words it: omitted when the count is 1. -/
def spec_countSuffix (n : Nat) : String := if n = 1 then "" else toString n

/-- The order of element symbols in the spec's Hill-like formula: carbon
first, then hydrogen, then the remaining distinct symbols alphabetically. -/
def spec_hillOrder (syms : List String) : List String :=
  (if "C" ∈ syms then ["C"] else []) ++ (if "H" ∈ syms then ["H"] else []) ++
    sortKeys (syms.dedup.filter (fun s => !(s == "C") && !(s == "H")))

/-- The Hill-like formula as the spec describes it. -/
def spec_hillFormula (syms : List String) : String :=
  strConcat ((spec_hillOrder syms).map (fun e => e ++ spec_countSuffix (syms.count e)))

/-! ### The handlers of src/app.py -/

/-- The `try: ... generate_content ... json.loads ... except ...` block shared
verbatim (up to the error-message prefix) by the three JSON endpoints:
a raised call maps to a 500 carrying the exception text, a failed
`json.loads` likewise, and a parsed value is returned with status 200. -/
def tryGenerate {J : Type} (parse : String → Except String J) (errPrefix : String)
    (call : Except String String) : Resp J :=
  match call with
  | .error e => ⟨500, .errorMsg (errPrefix ++ e)⟩
  | .ok text =>
    match parse text with
    | .error e => ⟨500, .errorMsg (errPrefix ++ e)⟩
    | .ok j => ⟨200, .payload j⟩

/-- The `try: ... except ...` block of `get_fun_fact`: no JSON parse, the
text is stripped and wrapped as `{"fact": ...}`. -/
def tryFunFact {J : Type} (call : Except String String) : Resp J :=
  match call with
  | .error e => ⟨500, .errorMsg ("AI fact generation failed: " ++ e)⟩
  | .ok fact => ⟨200, .factPayload (pyStrip fact)⟩

/-- `GET /` (src/app.py `serve_frontend`). -/
def serve_frontend {J : Type} (static_folder : Option String) : Resp J :=
  match static_folder with
  | none => ⟨500, .textBody "Server configuration error: Static folder not found."⟩
  | some folder => ⟨200, .file folder "User_Interface.html"⟩

/-- `app = Flask(__name__, static_folder='static')`. -/
def app_static_folder : Option String := some "static"

/-- `POST /api/predict_bonds` (src/app.py lines 181-222). -/
def handle_predict_bonds {J : Type} (API_KEY : Bool) (data : Option ReqData)
    (parse : String → Except String J) (call : Except String String) : Resp J :=
  if !API_KEY then ⟨500, .errorMsg "Server is missing GEMINI_API_KEY"⟩
  else
    match data with
    | none => ⟨400, .errorMsg "Invalid request: 'atoms' list missing"⟩
    | some d =>
      match d.atoms with
      | none => ⟨400, .errorMsg "Invalid request: 'atoms' list missing"⟩
      | some atom_list =>
        if atom_list.length < 2 then ⟨400, .errorMsg "At least 2 atoms are required"⟩
        else tryGenerate parse "AI prediction failed: " call

/-- `POST /api/get_fun_fact` (src/app.py lines 225-240). -/
def get_fun_fact {J : Type} (API_KEY : Bool) (data : Option ReqData)
    (call : Except String String) : Resp J :=
  if !API_KEY then ⟨500, .errorMsg "Server is missing GEMINI_API_KEY"⟩
  else
    match data with
    | none => ⟨400, .errorMsg "Invalid request: 'element' missing"⟩
    | some d =>
      match d.element with
      | none => ⟨400, .errorMsg "Invalid request: 'element' missing"⟩
      | some _ => tryFunFact call

/-- `POST /api/get_molecule_info` (src/app.py lines 243-282). -/
def get_molecule_info {J : Type} (API_KEY : Bool) (data : Option ReqData)
    (parse : String → Except String J) (call : Except String String) : Resp J :=
  if !API_KEY then ⟨500, .errorMsg "Server is missing GEMINI_API_KEY"⟩
  else
    match data with
    | none => ⟨400, .errorMsg "Invalid request: 'atoms' list missing"⟩
    | some d =>
      match d.atoms with
      | none => ⟨400, .errorMsg "Invalid request: 'atoms' list missing"⟩
      | some _ => tryGenerate parse "AI info generation failed: " call

/-- `POST /api/analyze_structure` (src/app.py lines 285-310). -/
def analyze_structure {J : Type} (API_KEY : Bool) (data : Option ReqData)
    (parse : String → Except String J) (call : Except String String) : Resp J :=
  if !API_KEY then ⟨500, .errorMsg "Server is missing GEMINI_API_KEY"⟩
  else
    match data with
    | none => ⟨400, .errorMsg "Invalid request: 'atoms' and 'bonds' lists missing"⟩
    | some d =>
      match d.atoms, d.bonds with
      | some atom_list, some _ =>
        if atom_list.isEmpty then ⟨400, .errorMsg "No atoms to analyze"⟩
        else tryGenerate parse "AI analysis failed: " call
      | _, _ => ⟨400, .errorMsg "Invalid request: 'atoms' and 'bonds' lists missing"⟩

/-! ### The single handler of src/Main_python.py (the first revision, where
atoms are bare element strings) -/

namespace MainPy

/-- The parsed JSON request body of the first revision. -/
structure ReqData where
  atoms : Option (List String)
deriving DecidableEq

/-- `POST /api/predict_bonds` (src/Main_python.py lines 73-114). -/
def handle_predict_bonds {J : Type} (API_KEY : Bool) (data : Option ReqData)
    (parse : String → Except String J) (call : Except String String) : Resp J :=
  if !API_KEY then ⟨500, .errorMsg "Server is missing GEMINI_API_KEY"⟩
  else
    match data with
    | none => ⟨400, .errorMsg "Invalid request: 'atoms' list missing"⟩
    | some d =>
      match d.atoms with
      | none => ⟨400, .errorMsg "Invalid request: 'atoms' list missing"⟩
      | some atom_list =>
        if atom_list.length < 2 then ⟨400, .errorMsg "At least 2 atoms are required"⟩
        else tryGenerate parse "AI prediction failed: " call

end MainPy

/-! ### Helper lemmas -/

theorem suffixCount_eq_spec {n : Nat} (h : 0 < n) : suffixCount n = spec_countSuffix n := by
  rcases n with _ | _ | n
  · exact absurd h (lt_irrefl 0)
  · rfl
  · rw [suffixCount, spec_countSuffix, if_pos (by omega), if_neg (by omega)]

theorem dedup_filter_perm (p : String → Bool) (l : List String) :
    List.Perm ((l.filter p).dedup) (l.dedup.filter p) := by
  apply (List.perm_ext_iff_of_nodup (List.nodup_dedup _) ((List.nodup_dedup l).filter p)).mpr
  intro a
  simp [List.mem_dedup, List.mem_filter]

theorem formulaOfSymbols_eq_spec (syms : List String) :
    formulaOfSymbols syms = spec_hillFormula syms := by
  have hsort : sortKeys ((syms.filter (fun s => !(s == "C") && !(s == "H"))).dedup)
      = sortKeys (syms.dedup.filter (fun s => !(s == "C") && !(s == "H"))) :=
    sortKeys_eq_of_perm (dedup_filter_perm _ _)
  have hmap : (sortKeys (syms.dedup.filter (fun s => !(s == "C") && !(s == "H")))).map
        (fun e => e ++ suffixCount (syms.count e))
      = (sortKeys (syms.dedup.filter (fun s => !(s == "C") && !(s == "H")))).map
        (fun e => e ++ spec_countSuffix (syms.count e)) := by
    apply List.map_congr_left
    intro e he
    have hmem : e ∈ syms := by
      have hX : e ∈ syms.dedup.filter (fun s => !(s == "C") && !(s == "H")) := by
        simpa [sortKeys] using he
      exact List.mem_dedup.mp (List.mem_filter.mp hX).1
    rw [suffixCount_eq_spec (List.count_pos_iff.mpr hmem)]
  simp only [formulaOfSymbols, spec_hillFormula, spec_hillOrder]
  rw [hsort, hmap, List.map_append, List.map_append, strConcat_append, strConcat_append]
  congr 1
  congr 1
  · by_cases hc : "C" ∈ syms
    · rw [if_pos hc, if_pos (List.count_pos_iff.mpr hc), List.map_cons, List.map_nil,
        strConcat, strConcat, String.append_empty, suffixCount_eq_spec (List.count_pos_iff.mpr hc)]
    · rw [if_neg hc, if_neg (by simp [List.count_eq_zero.mpr hc]), List.map_nil, strConcat]
  · by_cases hh : "H" ∈ syms
    · rw [if_pos hh, if_pos (List.count_pos_iff.mpr hh), List.map_cons, List.map_nil,
        strConcat, strConcat, String.append_empty, suffixCount_eq_spec (List.count_pos_iff.mpr hh)]
    · rw [if_neg hh, if_neg (by simp [List.count_eq_zero.mpr hh]), List.map_nil, strConcat]

theorem formulaOfSymbols_perm {s₁ s₂ : List String} (h : List.Perm s₁ s₂) :
    formulaOfSymbols s₁ = formulaOfSymbols s₂ := by
  simp only [formulaOfSymbols]
  rw [h.count_eq "C", h.count_eq "H",
    sortKeys_eq_of_perm ((h.filter (fun s => !(s == "C") && !(s == "H"))).dedup),
    show (fun e => e ++ suffixCount (s₁.count e)) = (fun e => e ++ suffixCount (s₂.count e)) from
      funext fun e => by rw [h.count_eq e]]

/-! ### Claim theorems -/

/-- C1: the formula builder inlined in `handle_predict_bonds` and
`get_molecule_info` emits, for every list of atom objects, the spec's
Hill-like formula over the element symbols — carbon first, then hydrogen,
then the remaining elements in alphabetical order by symbol, with the count
suffix omitted when an element's count is 1 — and in particular maps the
elements C,H,H,H,H to "CH4", O,O,O to "O3" and Na,Cl to "ClNa". -/
theorem claim_C1_formula_hill :
    (∀ atom_list : List Atom,
        formulaOf atom_list = spec_hillFormula (atom_list.map Atom.getElement))
    ∧ formulaOf [⟨some "C", none, none⟩, ⟨some "H", none, none⟩, ⟨some "H", none, none⟩,
        ⟨some "H", none, none⟩, ⟨some "H", none, none⟩] = "CH4"
    ∧ formulaOf [⟨some "O", none, none⟩, ⟨some "O", none, none⟩, ⟨some "O", none, none⟩] = "O3"
    ∧ formulaOf [⟨some "Na", none, none⟩, ⟨some "Cl", none, none⟩] = "ClNa" :=
  ⟨fun _ => formulaOfSymbols_eq_spec _, by decide, by decide, by decide⟩

/-- C9: the formula string depends only on the multiset of element symbols:
permuting the submitted atom list leaves the formula unchanged. -/
theorem claim_C9_formula_perm_invariant (l₁ l₂ : List Atom) (h : List.Perm l₁ l₂) :
    formulaOf l₁ = formulaOf l₂ :=
  formulaOfSymbols_perm (h.map Atom.getElement)

/-- Witness for C9 at a concrete permuted pair. -/
theorem claim_C9_witness :
    formulaOf [⟨some "H", none, none⟩, ⟨some "C", none, none⟩]
      = formulaOf [⟨some "C", none, none⟩, ⟨some "H", none, none⟩] :=
  claim_C9_formula_perm_invariant _ _ (by decide)

/-- C2: with `GEMINI_API_KEY` unset, every POST handler of both revisions
answers 500 with the one fixed message, for every request body and
independently of the model-call outcome (so without calling the model),
while `GET /` still serves the static frontend file. -/
theorem claim_C2_missing_key {J : Type} (d : Option ReqData) (dm : Option MainPy.ReqData)
    (parse : String → Except String J) (call : Except String String) :
    handle_predict_bonds false d parse call
        = ⟨500, .errorMsg "Server is missing GEMINI_API_KEY"⟩
    ∧ get_fun_fact (J := J) false d call = ⟨500, .errorMsg "Server is missing GEMINI_API_KEY"⟩
    ∧ get_molecule_info false d parse call = ⟨500, .errorMsg "Server is missing GEMINI_API_KEY"⟩
    ∧ analyze_structure false d parse call = ⟨500, .errorMsg "Server is missing GEMINI_API_KEY"⟩
    ∧ MainPy.handle_predict_bonds false dm parse call
        = ⟨500, .errorMsg "Server is missing GEMINI_API_KEY"⟩
    ∧ serve_frontend (J := J) app_static_folder = ⟨200, .file "static" "User_Interface.html"⟩ :=
  ⟨rfl, rfl, rfl, rfl, rfl, rfl⟩

/-- C10: the API-key check precedes body validation: with the key unset every
handler answers the fixed 500 whatever the body — including a body with
`atoms` missing and a one-atom body, which receive a 400 when the key is
set. -/
theorem claim_C10_key_check_first {J : Type} (d : Option ReqData)
    (dm : Option MainPy.ReqData) (parse : String → Except String J)
    (call : Except String String) :
    (handle_predict_bonds false d parse call
        = ⟨500, .errorMsg "Server is missing GEMINI_API_KEY"⟩
      ∧ get_fun_fact (J := J) false d call = ⟨500, .errorMsg "Server is missing GEMINI_API_KEY"⟩
      ∧ get_molecule_info false d parse call
        = ⟨500, .errorMsg "Server is missing GEMINI_API_KEY"⟩
      ∧ analyze_structure false d parse call
        = ⟨500, .errorMsg "Server is missing GEMINI_API_KEY"⟩
      ∧ MainPy.handle_predict_bonds false dm parse call
        = ⟨500, .errorMsg "Server is missing GEMINI_API_KEY"⟩)
    ∧ handle_predict_bonds (J := J) true (some ⟨none, none, none⟩) parse call
        = ⟨400, .errorMsg "Invalid request: 'atoms' list missing"⟩
    ∧ handle_predict_bonds (J := J) true
          (some ⟨some [⟨some "H", none, none⟩], none, none⟩) parse call
        = ⟨400, .errorMsg "At least 2 atoms are required"⟩
    ∧ handle_predict_bonds (J := J) false (some ⟨none, none, none⟩) parse call
        = ⟨500, .errorMsg "Server is missing GEMINI_API_KEY"⟩
    ∧ handle_predict_bonds (J := J) false
          (some ⟨some [⟨some "H", none, none⟩], none, none⟩) parse call
        = ⟨500, .errorMsg "Server is missing GEMINI_API_KEY"⟩ :=
  ⟨⟨rfl, rfl, rfl, rfl, rfl⟩, rfl, rfl, rfl, rfl⟩

/-- C3: a `/api/predict_bonds` request (in either revision, with the key
set) whose body carries an `atoms` list of fewer than 2 entries gets a 400
with "At least 2 atoms are required", independently of the model-call
outcome (so the model is not called). -/
theorem claim_C3_short_atom_list {J : Type} (d : ReqData) (dm : MainPy.ReqData)
    (atoms : List Atom) (syms : List String) (parse : String → Except String J)
    (call : Except String String)
    (hd : d.atoms = some atoms) (hlen : atoms.length < 2)
    (hdm : dm.atoms = some syms) (hmlen : syms.length < 2) :
    handle_predict_bonds true (some d) parse call
      = ⟨400, .errorMsg "At least 2 atoms are required"⟩
    ∧ MainPy.handle_predict_bonds true (some dm) parse call
      = ⟨400, .errorMsg "At least 2 atoms are required"⟩ := by
  constructor
  · simp [handle_predict_bonds, hd, hlen]
  · simp [MainPy.handle_predict_bonds, hdm, hmlen]

/-- Witness for C3 at a concrete one-atom body. -/
theorem claim_C3_witness :
    handle_predict_bonds (J := Nat) true (some ⟨some [⟨some "O", none, none⟩], none, none⟩)
        (fun _ => Except.error "p") (Except.ok "t")
      = ⟨400, RespBody.errorMsg "At least 2 atoms are required"⟩
    ∧ MainPy.handle_predict_bonds (J := Nat) true (some ⟨some ["O"]⟩)
        (fun _ => Except.error "p") (Except.ok "t")
      = ⟨400, RespBody.errorMsg "At least 2 atoms are required"⟩ :=
  claim_C3_short_atom_list _ _ _ _ _ _ rfl (by decide) rfl (by decide)

/-- C4: with the key set, a POST body that is absent or lacks the endpoint's
required field gets a 400 with the endpoint's descriptive message,
independently of the model-call outcome (so the model is not called). -/
theorem claim_C4_missing_field_400 {J : Type} (d : ReqData) (dm : MainPy.ReqData)
    (parse : String → Except String J) (call : Except String String) :
    handle_predict_bonds (J := J) true none parse call
        = ⟨400, .errorMsg "Invalid request: 'atoms' list missing"⟩
    ∧ (d.atoms = none → handle_predict_bonds true (some d) parse call
        = ⟨400, .errorMsg "Invalid request: 'atoms' list missing"⟩)
    ∧ get_molecule_info (J := J) true none parse call
        = ⟨400, .errorMsg "Invalid request: 'atoms' list missing"⟩
    ∧ (d.atoms = none → get_molecule_info true (some d) parse call
        = ⟨400, .errorMsg "Invalid request: 'atoms' list missing"⟩)
    ∧ get_fun_fact (J := J) true none call
        = ⟨400, .errorMsg "Invalid request: 'element' missing"⟩
    ∧ (d.element = none → get_fun_fact (J := J) true (some d) call
        = ⟨400, .errorMsg "Invalid request: 'element' missing"⟩)
    ∧ analyze_structure (J := J) true none parse call
        = ⟨400, .errorMsg "Invalid request: 'atoms' and 'bonds' lists missing"⟩
    ∧ (d.atoms = none ∨ d.bonds = none → analyze_structure true (some d) parse call
        = ⟨400, .errorMsg "Invalid request: 'atoms' and 'bonds' lists missing"⟩)
    ∧ MainPy.handle_predict_bonds (J := J) true none parse call
        = ⟨400, .errorMsg "Invalid request: 'atoms' list missing"⟩
    ∧ (dm.atoms = none → MainPy.handle_predict_bonds true (some dm) parse call
        = ⟨400, .errorMsg "Invalid request: 'atoms' list missing"⟩) := by
  refine ⟨rfl, fun h => ?_, rfl, fun h => ?_, rfl, fun h => ?_, rfl, fun h => ?_, rfl,
    fun h => ?_⟩
  · simp [handle_predict_bonds, h]
  · simp [get_molecule_info, h]
  · simp [get_fun_fact, h]
  · rcases d with ⟨da, de, db⟩
    rcases h with h | h <;> simp only at h <;> subst h
    · cases db <;> rfl
    · cases da <;> rfl
  · simp [MainPy.handle_predict_bonds, h]

/-- Witness for C4 at the empty body. -/
theorem claim_C4_witness :
    handle_predict_bonds (J := Nat) true (some ⟨none, none, none⟩)
        (fun _ => Except.ok 0) (Except.ok "t")
      = ⟨400, RespBody.errorMsg "Invalid request: 'atoms' list missing"⟩
    ∧ get_molecule_info (J := Nat) true (some ⟨none, none, none⟩)
        (fun _ => Except.ok 0) (Except.ok "t")
      = ⟨400, RespBody.errorMsg "Invalid request: 'atoms' list missing"⟩
    ∧ get_fun_fact (J := Nat) true (some ⟨none, none, none⟩) (Except.ok "t")
      = ⟨400, RespBody.errorMsg "Invalid request: 'element' missing"⟩
    ∧ analyze_structure (J := Nat) true (some ⟨none, none, none⟩)
        (fun _ => Except.ok 0) (Except.ok "t")
      = ⟨400, RespBody.errorMsg "Invalid request: 'atoms' and 'bonds' lists missing"⟩
    ∧ MainPy.handle_predict_bonds (J := Nat) true (some ⟨none⟩)
        (fun _ => Except.ok 0) (Except.ok "t")
      = ⟨400, RespBody.errorMsg "Invalid request: 'atoms' list missing"⟩ := by
  obtain ⟨-, h1, -, h2, -, h3, -, h4, -, h5⟩ :=
    claim_C4_missing_field_400 (J := Nat) ⟨none, none, none⟩ ⟨none⟩
      (fun _ => Except.ok 0) (Except.ok "t")
  exact ⟨h1 rfl, h2 rfl, h3 rfl, h4 (Or.inl rfl), h5 rfl⟩

/-- C5: with the key set and a valid body, a model call that raises — or a
model text whose parse raises — produces a 500 whose error text contains the
upstream exception's message, on every endpoint of both revisions. -/
theorem claim_C5_model_failure_500 {J : Type} (d : ReqData) (dm : MainPy.ReqData)
    (atoms : List Atom) (syms : List String) (bonds : List Bond) (el e t : String)
    (parse : String → Except String J)
    (hd : d.atoms = some atoms) (hlen : 2 ≤ atoms.length)
    (hel : d.element = some el) (hb : d.bonds = some bonds)
    (hdm : dm.atoms = some syms) (hmlen : 2 ≤ syms.length)
    (hparse : parse t = .error e) :
    (handle_predict_bonds true (some d) parse (.error e)
        = ⟨500, .errorMsg ("AI prediction failed: " ++ e)⟩
      ∧ containsStr ("AI prediction failed: " ++ e) e)
    ∧ (get_fun_fact (J := J) true (some d) (.error e)
        = ⟨500, .errorMsg ("AI fact generation failed: " ++ e)⟩
      ∧ containsStr ("AI fact generation failed: " ++ e) e)
    ∧ (get_molecule_info true (some d) parse (.error e)
        = ⟨500, .errorMsg ("AI info generation failed: " ++ e)⟩
      ∧ containsStr ("AI info generation failed: " ++ e) e)
    ∧ (analyze_structure true (some d) parse (.error e)
        = ⟨500, .errorMsg ("AI analysis failed: " ++ e)⟩
      ∧ containsStr ("AI analysis failed: " ++ e) e)
    ∧ MainPy.handle_predict_bonds true (some dm) parse (.error e)
        = ⟨500, .errorMsg ("AI prediction failed: " ++ e)⟩
    ∧ handle_predict_bonds true (some d) parse (.ok t)
        = ⟨500, .errorMsg ("AI prediction failed: " ++ e)⟩
    ∧ get_molecule_info true (some d) parse (.ok t)
        = ⟨500, .errorMsg ("AI info generation failed: " ++ e)⟩
    ∧ analyze_structure true (some d) parse (.ok t)
        = ⟨500, .errorMsg ("AI analysis failed: " ++ e)⟩
    ∧ MainPy.handle_predict_bonds true (some dm) parse (.ok t)
        = ⟨500, .errorMsg ("AI prediction failed: " ++ e)⟩ := by
  have hne : atoms.isEmpty = false := by
    rcases atoms with _ | ⟨a, rest⟩
    · simp at hlen
    · rfl
  have hnotlt : ¬ atoms.length < 2 := not_lt.mpr hlen
  have hmnotlt : ¬ syms.length < 2 := not_lt.mpr hmlen
  refine ⟨⟨?_, "AI prediction failed: ", "", by rw [String.append_empty]⟩,
    ⟨?_, "AI fact generation failed: ", "", by rw [String.append_empty]⟩,
    ⟨?_, "AI info generation failed: ", "", by rw [String.append_empty]⟩,
    ⟨?_, "AI analysis failed: ", "", by rw [String.append_empty]⟩, ?_, ?_, ?_, ?_, ?_⟩
  · simp [handle_predict_bonds, hd, hnotlt, tryGenerate]
  · simp [get_fun_fact, hel, tryFunFact]
  · simp [get_molecule_info, hd, tryGenerate]
  · simp [analyze_structure, hd, hb, hne, tryGenerate]
  · simp [MainPy.handle_predict_bonds, hdm, hmnotlt, tryGenerate]
  · simp [handle_predict_bonds, hd, hnotlt, tryGenerate, hparse]
  · simp [get_molecule_info, hd, tryGenerate, hparse]
  · simp [analyze_structure, hd, hb, hne, tryGenerate, hparse]
  · simp [MainPy.handle_predict_bonds, hdm, hmnotlt, tryGenerate, hparse]

/-- Witness for C5 at a concrete valid body, exception text "boom" and a
parse that fails with "boom". -/
theorem claim_C5_witness :
    (handle_predict_bonds true
          (some ⟨some [⟨some "O", none, none⟩, ⟨some "O", none, none⟩], some "Na", some []⟩)
          (fun _ => (Except.error "boom" : Except String Nat)) (.error "boom")
        = ⟨500, .errorMsg ("AI prediction failed: " ++ "boom")⟩
      ∧ containsStr ("AI prediction failed: " ++ "boom") "boom")
    ∧ (get_fun_fact (J := Nat) true
          (some ⟨some [⟨some "O", none, none⟩, ⟨some "O", none, none⟩], some "Na", some []⟩)
          (.error "boom")
        = ⟨500, .errorMsg ("AI fact generation failed: " ++ "boom")⟩
      ∧ containsStr ("AI fact generation failed: " ++ "boom") "boom") := by
  obtain ⟨h1, h2, -⟩ :=
    claim_C5_model_failure_500
      (⟨some [⟨some "O", none, none⟩, ⟨some "O", none, none⟩], some "Na", some []⟩ : ReqData)
      (⟨some ["O", "O"]⟩ : MainPy.ReqData)
      [⟨some "O", none, none⟩, ⟨some "O", none, none⟩] ["O", "O"] [] "Na" "boom" "t"
      (fun _ => (Except.error "boom" : Except String Nat))
      rfl (by decide) rfl rfl rfl (by decide) rfl
  exact ⟨h1, h2⟩

/-- C6: `analyze_structure` answers 400 when the body is absent, when
`atoms` or `bonds` is missing, or when the `atoms` list is empty, and
otherwise forwards the structure to the model (the response is the
model-call flow's outcome). -/
theorem claim_C6_analyze_validation {J : Type} (d : ReqData)
    (parse : String → Except String J) (call : Except String String) :
    analyze_structure (J := J) true none parse call
      = ⟨400, .errorMsg "Invalid request: 'atoms' and 'bonds' lists missing"⟩
    ∧ (d.atoms = none ∨ d.bonds = none →
        analyze_structure true (some d) parse call
          = ⟨400, .errorMsg "Invalid request: 'atoms' and 'bonds' lists missing"⟩)
    ∧ (∀ bonds, d.atoms = some [] → d.bonds = some bonds →
        analyze_structure true (some d) parse call = ⟨400, .errorMsg "No atoms to analyze"⟩)
    ∧ (∀ a rest bonds, d.atoms = some (a :: rest) → d.bonds = some bonds →
        analyze_structure true (some d) parse call
          = tryGenerate parse "AI analysis failed: " call) := by
  refine ⟨rfl, fun h => ?_, fun bonds h1 h2 => ?_, fun a rest bonds h1 h2 => ?_⟩
  · rcases d with ⟨da, de, db⟩
    rcases h with h | h <;> simp only at h <;> subst h
    · cases db <;> rfl
    · cases da <;> rfl
  · simp [analyze_structure, h1, h2]
  · simp [analyze_structure, h1, h2]

/-- Witness for C6 at concrete bodies hitting each branch. -/
theorem claim_C6_witness :
    analyze_structure (J := Nat) true (some ⟨some [], some "x", some []⟩)
        (fun _ => Except.ok 0) (Except.ok "t")
      = ⟨400, RespBody.errorMsg "No atoms to analyze"⟩
    ∧ analyze_structure (J := Nat) true (some ⟨some [⟨some "O", none, none⟩], none, some []⟩)
        (fun _ => Except.ok 0) (Except.ok "t")
      = tryGenerate (fun _ => Except.ok 0) "AI analysis failed: " (Except.ok "t")
    ∧ analyze_structure (J := Nat) true (some ⟨some [], none, none⟩)
        (fun _ => Except.ok 0) (Except.ok "t")
      = ⟨400, RespBody.errorMsg "Invalid request: 'atoms' and 'bonds' lists missing"⟩ := by
  obtain ⟨-, -, h3, -⟩ := claim_C6_analyze_validation (J := Nat)
    ⟨some [], some "x", some []⟩ (fun _ => Except.ok 0) (Except.ok "t")
  obtain ⟨-, -, -, h4⟩ := claim_C6_analyze_validation (J := Nat)
    ⟨some [⟨some "O", none, none⟩], none, some []⟩ (fun _ => Except.ok 0) (Except.ok "t")
  obtain ⟨-, h2, -, -⟩ := claim_C6_analyze_validation (J := Nat)
    ⟨some [], none, none⟩ (fun _ => Except.ok 0) (Except.ok "t")
  exact ⟨h3 [] rfl rfl, h4 ⟨some "O", none, none⟩ [] [] rfl rfl, h2 (Or.inr rfl)⟩

/-- C7 counterexample: `analyze_structure` does enforce a content-based
invariant beyond field presence — a body with both required fields present
but an empty `atoms` list is answered 400, not forwarded to the model. -/
theorem claim_C7_counterexample :
    analyze_structure (J := String) true (some ⟨some [], none, some []⟩)
        (fun s => Except.ok s) (Except.ok "analysis")
      = ⟨400, RespBody.errorMsg "No atoms to analyze"⟩
    ∧ tryGenerate (fun s => (Except.ok s : Except String String)) "AI analysis failed: "
        (Except.ok "analysis") = ⟨200, RespBody.payload "analysis"⟩
    ∧ analyze_structure (J := String) true (some ⟨some [], none, some []⟩)
        (fun s => Except.ok s) (Except.ok "analysis")
      ≠ tryGenerate (fun s => (Except.ok s : Except String String)) "AI analysis failed: "
          (Except.ok "analysis") :=
  ⟨rfl, rfl, by decide⟩

/-- C7 amended: no content-based invariant is enforced beyond "at least 2
atoms" for bond prediction and a nonempty `atoms` list for structure
analysis: `get_fun_fact` and `get_molecule_info` forward every body
containing their required field whatever its value, `analyze_structure`
forwards every body with both fields present and a nonempty atom list, and
the model's parsed output is forwarded without independent schema
validation (any parse result is returned as the 200 payload). -/
theorem claim_C7_no_further_validation {J : Type} (d : ReqData) (el : String)
    (atoms : List Atom) (a : Atom) (rest : List Atom) (bonds : List Bond)
    (errPrefix t : String) (j : J)
    (parse : String → Except String J) (call : Except String String)
    (hel : d.element = some el) (hatoms : d.atoms = some atoms)
    (hbonds : d.bonds = some bonds) :
    get_fun_fact (J := J) true (some d) call = tryFunFact call
    ∧ get_molecule_info true (some d) parse call
      = tryGenerate parse "AI info generation failed: " call
    ∧ (d.atoms = some (a :: rest) → analyze_structure true (some d) parse call
      = tryGenerate parse "AI analysis failed: " call)
    ∧ (parse t = .ok j → tryGenerate parse errPrefix (.ok t) = ⟨200, .payload j⟩) := by
  refine ⟨?_, ?_, fun h => ?_, fun hp => ?_⟩
  · simp [get_fun_fact, hel]
  · simp [get_molecule_info, hatoms]
  · simp [analyze_structure, h, hbonds]
  · simp [tryGenerate, hp]

/-- Witness for C7's amended claim at a concrete body. -/
theorem claim_C7_witness :
    get_fun_fact (J := String) true (some ⟨some [], some "Na", some []⟩) (Except.ok "fact")
      = tryFunFact (Except.ok "fact")
    ∧ get_molecule_info (J := String) true (some ⟨some [], some "Na", some []⟩)
        (fun s => Except.ok s) (Except.ok "out")
      = tryGenerate (fun s => Except.ok s) "AI info generation failed: " (Except.ok "out")
    ∧ tryGenerate (fun s => (Except.ok s : Except String String)) "AI analysis failed: "
        (Except.ok "out") = ⟨200, RespBody.payload "out"⟩ := by
  obtain ⟨h1, -, -, h4⟩ :=
    claim_C7_no_further_validation (⟨some [], some "Na", some []⟩ : ReqData) "Na" []
      ⟨some "O", none, none⟩ [] [] "AI analysis failed: " "out" "out"
      (fun s => Except.ok s) (Except.ok "fact") rfl rfl rfl
  obtain ⟨-, h2, -, -⟩ :=
    claim_C7_no_further_validation (⟨some [], some "Na", some []⟩ : ReqData) "Na" []
      ⟨some "O", none, none⟩ [] [] "AI analysis failed: " "out" "out"
      (fun s => Except.ok s) (Except.ok "out") rfl rfl rfl
  exact ⟨h1, h2, h4 rfl⟩

/-- C8 counterexample: `get_fun_fact` does not return the model's output
verbatim — it strips surrounding whitespace from the model text before
responding. -/
theorem claim_C8_counterexample :
    get_fun_fact (J := String) true (some ⟨none, some "Na", none⟩)
        (Except.ok " Sodium glows. \n")
      = ⟨200, RespBody.factPayload "Sodium glows."⟩
    ∧ get_fun_fact (J := String) true (some ⟨none, some "Na", none⟩)
        (Except.ok " Sodium glows. \n")
      ≠ ⟨200, RespBody.factPayload " Sodium glows. \n"⟩ :=
  ⟨by decide, by decide⟩

theorem tryGenerate_status_200 {J : Type} (parse : String → Except String J)
    (errPrefix : String) (call : Except String String) :
    (tryGenerate parse errPrefix call).status = 200 ↔
      ∃ t j, call = .ok t ∧ parse t = .ok j := by
  rcases call with e | t
  · simp [tryGenerate]
  · rcases hp : parse t with e | j
    · simp [tryGenerate, hp]
    · simp [tryGenerate, hp]

/-- C8 amended: on every successful model call, with the key set and a valid
body, the three JSON endpoints (in both revisions) return the parsed model
output verbatim with status 200, while `get_fun_fact` returns the model text
with surrounding whitespace stripped; an error response occurs only when the
call or the parse fails (the status is 200 exactly when both succeed). -/
theorem claim_C8_output_verbatim {J : Type} (d : ReqData) (dm : MainPy.ReqData)
    (atoms : List Atom) (syms : List String) (bonds : List Bond) (el t : String) (j : J)
    (parse : String → Except String J) (call : Except String String)
    (hd : d.atoms = some atoms) (hlen : 2 ≤ atoms.length)
    (hel : d.element = some el) (hb : d.bonds = some bonds)
    (hdm : dm.atoms = some syms) (hmlen : 2 ≤ syms.length)
    (hparse : parse t = .ok j) :
    handle_predict_bonds true (some d) parse (.ok t) = ⟨200, .payload j⟩
    ∧ get_molecule_info true (some d) parse (.ok t) = ⟨200, .payload j⟩
    ∧ analyze_structure true (some d) parse (.ok t) = ⟨200, .payload j⟩
    ∧ MainPy.handle_predict_bonds true (some dm) parse (.ok t) = ⟨200, .payload j⟩
    ∧ get_fun_fact (J := J) true (some d) (.ok t) = ⟨200, .factPayload (pyStrip t)⟩
    ∧ ((handle_predict_bonds true (some d) parse call).status = 200 ↔
        ∃ t' j', call = .ok t' ∧ parse t' = .ok j') := by
  have hne : atoms.isEmpty = false := by
    rcases atoms with _ | ⟨a, rest⟩
    · simp at hlen
    · rfl
  have hnotlt : ¬ atoms.length < 2 := not_lt.mpr hlen
  have hmnotlt : ¬ syms.length < 2 := not_lt.mpr hmlen
  refine ⟨?_, ?_, ?_, ?_, ?_, ?_⟩
  · simp [handle_predict_bonds, hd, hnotlt, tryGenerate, hparse]
  · simp [get_molecule_info, hd, tryGenerate, hparse]
  · simp [analyze_structure, hd, hb, hne, tryGenerate, hparse]
  · simp [MainPy.handle_predict_bonds, hdm, hmnotlt, tryGenerate, hparse]
  · simp [get_fun_fact, hel, tryFunFact]
  · rw [show handle_predict_bonds true (some d) parse call
        = tryGenerate parse "AI prediction failed: " call by
      simp [handle_predict_bonds, hd, hnotlt]]
    exact tryGenerate_status_200 parse "AI prediction failed: " call

/-- Witness for C8's amended claim at a concrete body and model output. -/
theorem claim_C8_witness :
    handle_predict_bonds true
        (some ⟨some [⟨some "O", none, none⟩, ⟨some "O", none, none⟩], some "Na", some []⟩)
        (fun s => (Except.ok s : Except String String)) (.ok "out")
      = ⟨200, RespBody.payload "out"⟩
    ∧ get_fun_fact (J := String) true
        (some ⟨some [⟨some "O", none, none⟩, ⟨some "O", none, none⟩], some "Na", some []⟩)
        (.ok " out ")
      = ⟨200, RespBody.factPayload "out"⟩ := by
  obtain ⟨h1, -⟩ :=
    claim_C8_output_verbatim
      (⟨some [⟨some "O", none, none⟩, ⟨some "O", none, none⟩], some "Na", some []⟩ : ReqData)
      (⟨some ["O", "O"]⟩ : MainPy.ReqData)
      [⟨some "O", none, none⟩, ⟨some "O", none, none⟩] ["O", "O"] [] "Na" "out" "out"
      (fun s => (Except.ok s : Except String String)) (.ok "out")
      rfl (by decide) rfl rfl rfl (by decide) rfl
  obtain ⟨-, -, -, -, h5, -⟩ :=
    claim_C8_output_verbatim
      (⟨some [⟨some "O", none, none⟩, ⟨some "O", none, none⟩], some "Na", some []⟩ : ReqData)
      (⟨some ["O", "O"]⟩ : MainPy.ReqData)
      [⟨some "O", none, none⟩, ⟨some "O", none, none⟩] ["O", "O"] [] "Na" " out " " out "
      (fun s => (Except.ok s : Except String String)) (.ok " out ")
      rfl (by decide) rfl rfl rfl (by decide) rfl
  rw [show pyStrip " out " = "out" by decide] at h5
  exact ⟨h1, h5⟩
